import Mathlib

/-!
Shallow embedding of the Teams attendance-report extractor
(src/email_parser.py, src/auth.py, src/config.py, src/graph_client.py,
src/main.py, src/refresh_token.py), with theorems settling the frozen
claims about its specification.

Conventions of the embedding:
* Python dict/JSON values are `JsonVal`; `dict.get`, truthiness and
  iteration carry Python semantics (`pyGet` raising `AttributeError` on a
  non-dict, `pyTruthy`, `pyAsList` raising `TypeError` on a non-list).
* Fallible Python code returns `Except String` (the error is the message of
  the uncaught exception); a caught exception is a `.error` consumed at the
  `try`/`except` boundary it is caught at, exactly as in the source.
* HTTP is an oracle passed in: `Http` maps a request (URL, headers, query
  params) to either a response or a transport-level exception; the
  BeautifulSoup parse of the HTML mail body is likewise external, so the
  extractor operates on the parsed DOM (`List Node`).
* Machine integers do not occur on the modelled paths; HTTP status codes
  are `Nat`.
-/

/-- JSON values, as produced by `response.json()` in the source. -/
inductive JsonVal where
  | null
  | bool (b : Bool)
  | num (n : Int)
  | str (s : String)
  | arr (elems : List JsonVal)
  | obj (fields : List (String × JsonVal))

/-- Python `d.get(key, default)`.  On a dict it returns the stored value (which
may itself be `null`) or the default when the key is absent; calling `.get` on
a non-dict raises `AttributeError`. -/
def pyGet (j : JsonVal) (key : String) (dflt : JsonVal) : Except String JsonVal :=
  match j with
  | .obj fields => .ok ((fields.lookup key).getD dflt)
  | _ => .error "AttributeError: object has no attribute get"

/-- Python key-membership test `key in d` for a dict. -/
def pyHasKey (fields : List (String × JsonVal)) (key : String) : Bool :=
  (fields.lookup key).isSome

/-- Python truthiness of a JSON value. -/
def pyTruthy : JsonVal → Bool
  | .null => false
  | .bool b => b
  | .num n => n != 0
  | .str s => s != ""
  | .arr xs => !xs.isEmpty
  | .obj fs => !fs.isEmpty

/-- Iterating a Python value as a list; a non-list raises `TypeError`. -/
def pyAsList : JsonVal → Except String (List JsonVal)
  | .arr xs => .ok xs
  | _ => .error "TypeError: object is not iterable"

/-- Python `str()` as used by f-string interpolation in the source.  Only
strings, `None`, booleans and integers are interpolated on the modelled
paths; aggregates get a placeholder. -/
def pyStr : JsonVal → String
  | .str s => s
  | .null => "None"
  | .bool true => "True"
  | .bool false => "False"
  | .num n => toString n
  | .arr _ => "[...]"
  | .obj _ => "\x7b...\x7d"

/-! Section: String helpers (Python `str.strip`, `str.replace`, `str.split`) -/

/-- Python `str.strip()` on the character list (whitespace both ends). -/
def stripChars (l : List Char) : List Char :=
  ((l.dropWhile Char.isWhitespace).reverse.dropWhile Char.isWhitespace).reverse

/-- Python `s.strip()`. -/
def pyStrip (s : String) : String :=
  String.mk (stripChars s.data)

/-- Python `s.replace(old, new)` for a single-character `old` (the source only
replaces the space character). -/
def replaceChar (old : Char) (new : List Char) : List Char → List Char
  | [] => []
  | c :: rest =>
    if c = old then new ++ replaceChar old new rest
    else c :: replaceChar old new rest

/-- Python `s.replace(' ', repl)` on strings. -/
def pyReplaceSpace (s : String) (repl : String) : String :=
  String.mk (replaceChar ' ' repl.data s.data)

/-- Python `s.split()` (split on whitespace runs, dropping empty pieces). -/
def pySplitWs (s : String) : List String :=
  (s.split Char.isWhitespace).filter (fun p => p != "")

/-- Whether `pat` occurs as a contiguous substring of `s` (the effect of
`re.compile(pat).search(s)` for the plain-text patterns of the source). -/
def containsSub (pat : List Char) : List Char → Bool
  | [] => pat.isEmpty
  | c :: rest => pat.isPrefixOf (c :: rest) || containsSub pat rest

/-! Section: The three join-link regular expressions of `extract_meeting_info`
and the decoded-form pattern of `extract_meeting_id_from_url`.

`re.search` tries each start position left to right; at a position where the
literal part matches, `([^x]+)` greedily captures the longest admissible run
and backtracks minimally, exactly as modelled below. -/

/-- Search for `lit` followed by a non-empty capture of characters other than
`stop` (Python `lit([^stop]+)` with a character-class stop): at each start
position, if `lit` is a prefix, the capture is the maximal run after it not
containing `stop`; an empty run fails this position and the search moves on.
Returns the capture group. -/
def searchLitCapture (lit : List Char) (stop : Char) : List Char → Option String
  | [] => none
  | c :: rest =>
    if lit.isPrefixOf (c :: rest) then
      if (((c :: rest).drop lit.length).takeWhile (fun x => x ≠ stop)).isEmpty then
        searchLitCapture lit stop rest
      else some (String.mk (((c :: rest).drop lit.length).takeWhile (fun x => x ≠ stop)))
    else searchLitCapture lit stop rest

/-- Greedy backtracking step for `([^"]+)%22`: the largest `k ≥ 1`, at most
`bound`, such that `rest` continues with `%22` at position `k`; the capture is
then `rest.take k`. -/
def greedyQuoteFrom (rest : List Char) : Nat → Option String
  | 0 => none
  | k + 1 =>
    if ("%22".data).isPrefixOf (rest.drop (k + 1)) then
      some (String.mk (rest.take (k + 1)))
    else greedyQuoteFrom rest k

/-- The capture of `([^"]+)%22` applied at a fixed position: `[^"]+` greedily
takes the maximal quote-free run and backtracks until the literal `%22`
follows. -/
def greedyQuoteCapture (rest : List Char) : Option String :=
  greedyQuoteFrom rest ((rest.takeWhile (fun x => x ≠ '"')).length)

/-- Search for `lit([^"]+)%22` (the Tid/Oid context patterns): leftmost start
position where the literal matches and the greedy capture succeeds. -/
def searchLitQuoteCapture (lit : List Char) : List Char → Option String
  | [] => none
  | c :: rest =>
    if lit.isPrefixOf (c :: rest) then
      match greedyQuoteCapture ((c :: rest).drop lit.length) with
      | some cap => some cap
      | none => searchLitQuoteCapture lit rest
    else searchLitQuoteCapture lit rest

/-- Hexadecimal digit value, as `urllib.parse.unquote` accepts it. -/
def hexVal (c : Char) : Option Nat :=
  if '0' ≤ c ∧ c ≤ '9' then some (c.toNat - '0'.toNat)
  else if 'a' ≤ c ∧ c ≤ 'f' then some (c.toNat - 'a'.toNat + 10)
  else if 'A' ≤ c ∧ c ≤ 'F' then some (c.toNat - 'A'.toNat + 10)
  else none

/-- `urllib.parse.unquote` restricted to single-byte escapes: every `%xy` with
two hex digits becomes the character with that code, other `%` are kept
verbatim.  (The join links of this program are ASCII, where this agrees with
the UTF-8 decoding Python performs.) -/
def unquoteChars : List Char → List Char
  | [] => []
  | c :: rest =>
    if c = '%' then
      match hR : rest with
      | a :: b :: rest2 =>
        match hexVal a, hexVal b with
        | some ha, some hb => Char.ofNat (16 * ha + hb) :: unquoteChars rest2
        | _, _ => '%' :: unquoteChars rest
      | _ => '%' :: unquoteChars rest
    else c :: unquoteChars rest
termination_by l => l.length
decreasing_by all_goals (try subst hR) <;> simp [List.length_cons] <;> omega

/-! Section: The parsed HTML mail body (BeautifulSoup's document tree) -/

/-- A node of the parsed HTML document: a tag with attributes and children, or
a text node (`NavigableString`). -/
inductive Node where
  | element (tag : String) (attrs : List (String × String)) (children : List Node)
  | text (s : String)

/-- BeautifulSoup `tag.string`: the value of a lone text child, looked through
a lone element child; `None` when the node has zero or several children. -/
def Node.stringVal : Node → Option String
  | .text s => some s
  | .element _ _ [c] => c.stringVal
  | .element _ _ _ => none

/-- Attribute lookup with default: `tag.get(key, dflt)`. -/
def Node.attrD (n : Node) (key dflt : String) : String :=
  match n with
  | .element _ attrs _ => (attrs.lookup key).getD dflt
  | .text _ => dflt

/-- Whether the node is an element with the given tag name. -/
def Node.hasTag (n : Node) (t : String) : Bool :=
  match n with
  | .element tag _ _ => tag == t
  | .text _ => false

mutual
/-- Preorder search inside one node for the first element satisfying `p`,
returning it with its later siblings (BeautifulSoup `find`, which also powers
`find_next_sibling` on the result). -/
def findInNode (p : Node → Bool) : Node → Option (Node × List Node)
  | .text _ => none
  | .element _ _ children => findInList p children

/-- Preorder search in a sibling list: each node is tested before its
descendants, descendants before later siblings. -/
def findInList (p : Node → Bool) : List Node → Option (Node × List Node)
  | [] => none
  | n :: rest =>
    if p n then some (n, rest)
    else
      match findInNode p n with
      | some r => some r
      | none => findInList p rest
end

mutual
/-- The descendant text fragments of a node, in document order
(BeautifulSoup `self.strings`). -/
def nodeTexts : Node → List String
  | .text s => [s]
  | .element _ _ children => listTexts children

/-- Text fragments of a sibling list. -/
def listTexts : List Node → List String
  | [] => []
  | n :: rest => nodeTexts n ++ listTexts rest
end

/-- BeautifulSoup `get_text(strip=True)`: the concatenation of all descendant
strings, each stripped. -/
def getTextStrip (n : Node) : String :=
  String.join ((nodeTexts n).map pyStrip)

/-- `soup.find(tagName, string=re.compile(label))`: elements of that tag whose
`.string` contains `label`. -/
def isLabelTag (tagName label : String) (n : Node) : Bool :=
  n.hasTag tagName &&
    match n.stringVal with
    | some s => containsSub label.data s.data
    | none => false

/-- `soup.find('a', id='meet_invite_block.action.join_link')`. -/
def isJoinAnchor (n : Node) : Bool :=
  n.hasTag "a" &&
    match n with
    | .element _ attrs _ => attrs.lookup "id" == some "meet_invite_block.action.join_link"
    | .text _ => false

/-- `elem.find_next_sibling('span')`: first later sibling that is a span. -/
def nextSiblingSpan (sibs : List Node) : Option Node :=
  sibs.find? (fun n => n.hasTag "span")

/-! Section: email_parser.py -/

/-- The dictionary returned by `extract_meeting_info`; all six keys are always
present, each value possibly `None`. -/
structure MeetingInfo where
  meeting_id : Option String
  passcode : Option String
  join_link : Option String
  thread_id : Option String
  organizer_id : Option String
  tenant_id : Option String
  deriving DecidableEq, Repr

/-- The `19%3ameeting_([^%]+)` thread pattern applied to the (still encoded)
join link. -/
def threadCapture (link : String) : Option String :=
  searchLitCapture ("19%3ameeting_".data) '%' link.data

/-- The `context=%7b%22Tid%22%3a%22([^"]+)%22` tenant pattern. -/
def tidCapture (link : String) : Option String :=
  searchLitQuoteCapture ("context=%7b%22Tid%22%3a%22".data) link.data

/-- The `%22Oid%22%3a%22([^"]+)%22` organizer pattern. -/
def oidCapture (link : String) : Option String :=
  searchLitQuoteCapture ("%22Oid%22%3a%22".data) link.data

/-- `EmailParser.extract_meeting_info`, acting on the parsed document.  Each
field is populated independently and stays `None` when its element or pattern
is absent; the function is total, so no input can raise. -/
def extract_meeting_info (doc : List Node) : MeetingInfo :=
  let meeting_id :=
    match findInList (isLabelTag "span" "Meeting ID:") doc with
    | some (_, sibs) =>
      match nextSiblingSpan sibs with
      | some sib => some (pyReplaceSpace (getTextStrip sib) "")
      | none => none
    | none => none
  let passcode :=
    match findInList (isLabelTag "span" "Passcode:") doc with
    | some (_, sibs) =>
      match nextSiblingSpan sibs with
      | some sib => some (getTextStrip sib)
      | none => none
    | none => none
  match findInList isJoinAnchor doc with
  | some (anchor, _) =>
    let join_link := anchor.attrD "href" ""
    { meeting_id, passcode
      join_link := some join_link
      thread_id := (threadCapture join_link).map (fun cap => "19:meeting_" ++ cap)
      tenant_id := tidCapture join_link
      organizer_id := oidCapture join_link }
  | none =>
    { meeting_id, passcode
      join_link := none, thread_id := none, tenant_id := none, organizer_id := none }

/-- `EmailParser.extract_meeting_id_from_url`: percent-decode the URL, then
search `19:meeting_([^@]+)`. -/
def extract_meeting_id_from_url (join_url : String) : Option String :=
  (searchLitCapture ("19:meeting_".data) '@' (unquoteChars join_url.data)).map
    (fun cap => "19:meeting_" ++ cap)

/-! Section: auth.py -/

/-- `GraphAuth`'s mutable state: the current access token (`None` until a
successful authentication). -/
structure AuthState where
  access_token : Option String
  deriving DecidableEq, Repr

/-- The state set up by `GraphAuth.__init__`. -/
def GraphAuth.initState : AuthState :=
  { access_token := none }

/-- The message of the exception raised by `get_access_token` when no
authentication has succeeded yet (the spec's `NotAuthenticatedError`). -/
def notAuthenticatedMsg : String :=
  "Not authenticated. Call authenticate_with_password() or authenticate_with_code() first."

/-- `GraphAuth.get_access_token`: the stored token, or the
`NotAuthenticatedError` exception while the stored value is falsy — the
source guards with a truthiness test (`if not self.access_token:`), so both
a still-unset token and a stored empty string raise. -/
def get_access_token (a : AuthState) : Except String String :=
  match a.access_token with
  | none => .error notAuthenticatedMsg
  | some t => if t = "" then .error notAuthenticatedMsg else .ok t

/-- The token-grant outcome returned by the identity library for one
`acquire_token_*` call: a dict that either carries `access_token` or error
fields. -/
structure MsalResult where
  access_token : Option String
  error_description : Option String
  error : Option String

/-- The provider error text used when the grant is rejected:
`result.get("error_description", result.get("error", "Unknown error"))`. -/
def MsalResult.errorText (r : MsalResult) : String :=
  r.error_description.getD (r.error.getD "Unknown error")

/-- `GraphAuth.authenticate_with_password`, with the identity call's outcome
supplied as an oracle: on success the token is stored and returned, otherwise
the raised exception is re-wrapped by the outer handler and the state is
unchanged. -/
def authenticate_with_password (st : AuthState) (result : MsalResult) :
    Except String String × AuthState :=
  match result.access_token with
  | some tok => (.ok tok, { st with access_token := some tok })
  | none =>
    (.error ("Failed to authenticate: " ++ ("Authentication failed: " ++ result.errorText)), st)

/-- `GraphAuth.authenticate_with_code`, same shape as the password grant. -/
def authenticate_with_code (st : AuthState) (result : MsalResult) :
    Except String String × AuthState :=
  match result.access_token with
  | some tok => (.ok tok, { st with access_token := some tok })
  | none =>
    (.error ("Failed to authenticate with code: " ++ ("Authentication failed: " ++ result.errorText)),
     st)

/-! Section: config.py -/

/-- The process environment (`os.getenv`). -/
def EnvMap := String → Option String

/-- `os.getenv(key, default)`. -/
def getenvD (env : EnvMap) (key dflt : String) : String :=
  (env key).getD dflt

/-- The `Config` class: every field resolved once from the environment with
its default. -/
structure Config where
  TENANT_ID : String
  CLIENT_ID : String
  CLIENT_SECRET : String
  USERNAME : String
  PASSWORD : String
  REDIRECT_URI : String
  SCOPE : List String
  GRAPH_API_ENDPOINT : String
  deriving Repr

/-- Loading the configuration from the environment (module import time). -/
def Config.load (env : EnvMap) : Config :=
  { TENANT_ID := getenvD env "TENANT_ID" ""
    CLIENT_ID := getenvD env "CLIENT_ID" ""
    CLIENT_SECRET := getenvD env "CLIENT_SECRET" ""
    USERNAME := getenvD env "USERNAME" ""
    PASSWORD := getenvD env "PASSWORD" ""
    REDIRECT_URI := getenvD env "REDIRECT_URI" "https://localhost"
    SCOPE := pySplitWs (getenvD env "SCOPE" "offline_access Calendars.Read")
    GRAPH_API_ENDPOINT := getenvD env "GRAPH_API_ENDPOINT" "https://graph.microsoft.com/v1.0" }

/-- `Config.authority`. -/
def Config.authority (c : Config) : String :=
  "https://login.microsoftonline.com/" ++ c.TENANT_ID

/-! Section: graph_client.py -/

/-- The header dict built by `GraphClient.__init__` and mutated by
`_refresh_headers` (only the `Authorization` entry ever changes). -/
structure Headers where
  authorization : String
  contentType : String
  deriving DecidableEq, Repr

/-- One `requests.get` call as issued by the client: URL, headers and query
parameters. -/
structure Request where
  url : String
  headers : Headers
  params : List (String × String)
  deriving DecidableEq, Repr

/-- An HTTP response with its already-parsed JSON body (`response.json()`). -/
structure HttpResponse where
  status : Nat
  body : JsonVal

/-- The transport: a pure oracle from request to response; `.error` stands for
a transport-level exception out of `requests.get` (or an unparseable body),
which the client code catches. -/
def Http := Request → Except String HttpResponse

/-- The `GraphClient` object: the shared authenticator reference and the
stored header dict. -/
structure GraphClient where
  auth : AuthState
  base_url : String
  headers : Headers

/-- `GraphClient.__init__`: the base URL is the hardcoded literal (the
configuration's `GRAPH_API_ENDPOINT` is never consulted) and the headers are
built from the token current at construction time.  An unauthenticated
authenticator makes the constructor raise. -/
def GraphClient.init (auth : AuthState) : Except String GraphClient :=
  match get_access_token auth with
  | .error e => .error e
  | .ok tok =>
    .ok { auth
          base_url := "https://graph.microsoft.com/v1.0"
          headers := { authorization := "Bearer " ++ tok, contentType := "application/json" } }

/-- `GraphClient._refresh_headers`: re-read the authenticator's current token
into the stored headers.  Called outside any `try`, so the
`NotAuthenticatedError` it may raise propagates out of the client method. -/
def GraphClient.refresh_headers (c : GraphClient) : Except String GraphClient :=
  match get_access_token c.auth with
  | .error e => .error e
  | .ok tok => .ok { c with headers := { c.headers with authorization := "Bearer " ++ tok } }

/-- The tail of `get_online_meeting_attendance_report` once the meeting GET
(after the optional quoted-id fallback) has produced a response: on 200,
GET the attendance-reports collection and return its parsed body; every other
outcome returns `None`. -/
def afterMeetingFetch (c : GraphClient) (http : Http) (meeting_id : String)
    (log : List Request) (resp : HttpResponse) :
    Option JsonVal × List Request × GraphClient :=
  if resp.status == 200 then
    let attendance_url := c.base_url ++ "/me/onlineMeetings/" ++ meeting_id ++ "/attendanceReports"
    let reqA : Request := { url := attendance_url, headers := c.headers, params := [] }
    match http reqA with
    | .error _ => (none, log ++ [reqA], c)
    | .ok respA =>
      if respA.status == 200 then (some respA.body, log ++ [reqA], c)
      else (none, log ++ [reqA], c)
  else (none, log, c)

/-- `GraphClient.get_online_meeting_attendance_report`: GET the meeting by
plain id; on 404 retry once with the quoted-id URL form; on 200 GET the
attendance-reports collection.  Returns the attendance payload or `None`,
together with the requests issued in order and the client with refreshed
headers.  Only `_refresh_headers` can raise; everything inside the `try` that
fails becomes a `None` result. -/
def GraphClient.get_online_meeting_attendance_report (c0 : GraphClient) (http : Http)
    (meeting_id : String) : Except String (Option JsonVal × List Request × GraphClient) :=
  match c0.refresh_headers with
  | .error e => .error e
  | .ok c =>
    let url1 := c.base_url ++ "/me/onlineMeetings/" ++ meeting_id
    let req1 : Request := { url := url1, headers := c.headers, params := [] }
    match http req1 with
    | .error _ => .ok (none, [req1], c)
    | .ok resp1 =>
      if resp1.status == 404 then
        let url2 := c.base_url ++ "/me/onlineMeetings('" ++ meeting_id ++ "')"
        let req2 : Request := { url := url2, headers := c.headers, params := [] }
        match http req2 with
        | .error _ => .ok (none, [req1, req2], c)
        | .ok resp2 => .ok (afterMeetingFetch c http meeting_id [req1, req2] resp2)
      else .ok (afterMeetingFetch c http meeting_id [req1] resp1)

/-- `GraphClient.get_meeting_attendance_records`: GET the attendance-records
collection of one report and return its `value` member (default `[]`), or
`None` on any non-200, transport failure or non-dict body. -/
def GraphClient.get_meeting_attendance_records (c0 : GraphClient) (http : Http)
    (meeting_id report_id : String) :
    Except String (Option JsonVal × List Request × GraphClient) :=
  match c0.refresh_headers with
  | .error e => .error e
  | .ok c =>
    let url := c.base_url ++ "/me/onlineMeetings/" ++ meeting_id ++ "/attendanceReports/" ++
      report_id ++ "/attendanceRecords"
    let req : Request := { url := url, headers := c.headers, params := [] }
    match http req with
    | .error _ => .ok (none, [req], c)
    | .ok resp =>
      if resp.status == 200 then
        match pyGet resp.body "value" (JsonVal.arr []) with
        | .ok v => .ok (some v, [req], c)
        | .error _ => .ok (none, [req], c)
      else .ok (none, [req], c)

/-- `GraphClient.list_online_meetings`: GET the meetings collection, passing
an optional `$filter`, and return the `value` member or `None`. -/
def GraphClient.list_online_meetings (c0 : GraphClient) (http : Http)
    (filter_query : Option String) :
    Except String (Option JsonVal × List Request × GraphClient) :=
  match c0.refresh_headers with
  | .error e => .error e
  | .ok c =>
    let url := c.base_url ++ "/me/onlineMeetings"
    let params := match filter_query with
      | some fq => [("$filter", fq)]
      | none => []
    let req : Request := { url := url, headers := c.headers, params := params }
    match http req with
    | .error _ => .ok (none, [req], c)
    | .ok resp =>
      if resp.status == 200 then
        match pyGet resp.body "value" (JsonVal.arr []) with
        | .ok v => .ok (some v, [req], c)
        | .error _ => .ok (none, [req], c)
      else .ok (none, [req], c)

/-- The requests issued by a client-method outcome (empty when the method
raised before issuing any). -/
def opRequests (r : Except String (Option JsonVal × List Request × GraphClient)) :
    List Request :=
  match r with
  | .ok (_, log, _) => log
  | .error _ => []

/-- The payload of a client-method outcome. -/
def opResult (r : Except String (Option JsonVal × List Request × GraphClient)) :
    Option JsonVal :=
  match r with
  | .ok (res, _, _) => res
  | .error _ => none

/-! Section: main.py -/

/-- The `attendance_data` dict assembled by `process_email_html`:
`{'reports': ..., 'attendance_records': ...}`. -/
structure FullReport where
  reports : List JsonVal
  attendance_records : List JsonVal

/-- The JSON document written by `save_attendance_report`. -/
structure PersistedReport where
  meeting_info : MeetingInfo
  attendance_data : FullReport
  extracted_at : String

/-- The exception message of `None.replace(...)`. -/
def noneReplaceMsg : String :=
  "AttributeError: NoneType object has no attribute replace"

/-- `save_attendance_report`: build the timestamped file name from the cleaned
meeting id and persist the report.  `meeting_info.get('meeting_id', 'unknown')`
returns the stored value because the extractor's dict always contains the key;
when that value is `None`, calling `.replace` on it raises `AttributeError`.
Returns the file name and the written document. -/
def save_attendance_report (meeting_info : MeetingInfo) (attendance_data : FullReport)
    (timestamp iso_now : String) (output_dir : String := "attendance_reports") :
    Except String (String × PersistedReport) :=
  match meeting_info.meeting_id with
  | none => .error noneReplaceMsg
  | some got =>
    let meeting_id_clean := pyReplaceSpace got "_"
    let filename := output_dir ++ "/attendance_" ++ meeting_id_clean ++ "_" ++ timestamp ++ ".json"
    .ok (filename, { meeting_info, attendance_data, extracted_at := iso_now })

/-- The record-collection loop of `process_email_html`: for each report, fetch
its records via `fetch`; a truthy result is appended to the flat list, a
`None` or empty result contributes nothing. -/
def recordsLoop (fetch : JsonVal → Except String (Option JsonVal)) :
    List JsonVal → Except String (List JsonVal)
  | [] => .ok []
  | report :: rest =>
    match fetch report with
    | .error e => .error e
    | .ok records =>
      match records with
      | some v =>
        if pyTruthy v then
          match pyAsList v with
          | .error e => .error e
          | .ok l =>
            match recordsLoop fetch rest with
            | .error e => .error e
            | .ok tail => .ok (l ++ tail)
        else recordsLoop fetch rest
      | none => recordsLoop fetch rest

/-- The per-report fetch closure used by the loop: read the report's `id` and
call `get_meeting_attendance_records` (the client's stored headers are
refreshed inside the call, so reusing `client` each iteration is exact). -/
def fetchRecordsOf (client : GraphClient) (http : Http) (meeting_id : String)
    (report : JsonVal) : Except String (Option JsonVal) :=
  match pyGet report "id" JsonVal.null with
  | .error e => .error e
  | .ok rid =>
    match client.get_meeting_attendance_records http meeting_id (pyStr rid) with
    | .error e => .error e
    | .ok r => .ok r.1

/-- The attendee-summary printing loop: each record is probed with chained
`.get` calls (which raise on non-dict values); output is discarded. -/
def summaryLoop : List JsonVal → Except String Unit
  | [] => .ok ()
  | record :: rest => do
    let identity ← pyGet record "identity" (JsonVal.obj [])
    let emailAddress ← pyGet identity "emailAddress" (JsonVal.obj [])
    let _ ← pyGet emailAddress "address" (JsonVal.str "N/A")
    let _ ← pyGet emailAddress "name" (JsonVal.str "N/A")
    let _ ← pyGet record "joinDateTime" (JsonVal.str "N/A")
    let _ ← pyGet record "leaveDateTime" (JsonVal.str "N/A")
    let _ ← pyGet record "totalAttendanceInSeconds" (JsonVal.num 0)
    summaryLoop rest

/-- `process_email_html`: the orchestration pipeline.  Inputs are the parsed
mail body, the authentication-method flag with the grant outcomes as oracles,
the HTTP oracle, and the two clock readings used for the file name and the
`extracted_at` stamp.  The outcome is `.ok (file name or None, file writes)`,
or `.error` for an exception that escapes the function — only the
authentication step is wrapped in a `try`.  -/
def process_email_html (doc : List Node) (use_password_auth : Bool)
    (pwResult codeResult : MsalResult) (http : Http) (timestamp iso_now : String) :
    Except String (Option String × List (String × PersistedReport)) := do
  let meeting_info := extract_meeting_info doc
  match meeting_info.thread_id with
  | none => .ok (none, [])
  | some meeting_id =>
    let (authOutcome, auth) :=
      if use_password_auth then authenticate_with_password GraphAuth.initState pwResult
      else authenticate_with_code GraphAuth.initState codeResult
    match authOutcome with
    | .error _ => .ok (none, [])
    | .ok _ => do
      let client ← GraphClient.init auth
      let fetched ← client.get_online_meeting_attendance_report http meeting_id
      match fetched.1 with
      | none => .ok (none, [])
      | some attendance_report =>
        if !pyTruthy attendance_report then .ok (none, []) else do
        let reportsVal ← pyGet attendance_report "value" (JsonVal.arr [])
        if pyTruthy reportsVal then do
          let reports ← pyAsList reportsVal
          let all_records ← recordsLoop (fetchRecordsOf client http meeting_id) reports
          let full_report : FullReport :=
            { reports := reports, attendance_records := all_records }
          let (filename, persisted) ← save_attendance_report meeting_info full_report
            timestamp iso_now
          let _ ← summaryLoop all_records
          .ok (some filename, [(filename, persisted)])
        else .ok (none, [])

/-! Section: refresh_token.py -/

/-- The POST transport of the standalone refresh utility: URL and form body to
either a response or a transport exception. -/
def HttpPost := String → List (String × String) → Except String HttpResponse

/-- `refresh_access_token`: exchange a refresh token at the tenant's token
endpoint.  On a 2xx response whose body carries `access_token`, the result is
the parsed body, and `access_token.txt` is written; the refresh token recorded
is the response's, or — when the response carries none — the one supplied as
input (`result.get('refresh_token', refresh_token)`).  Every failure path
(transport error, HTTP error status, missing `access_token`, non-dict body)
returns `None` and writes nothing.  The pair is (returned value, file content
written). -/
def refresh_access_token (tenant_id client_id client_secret scope refresh_token : String)
    (post : HttpPost) : Option JsonVal × Option String :=
  let token_url := "https://login.microsoftonline.com/" ++ tenant_id ++ "/oauth2/v2.0/token"
  let data := [("grant_type", "refresh_token"), ("client_id", client_id),
               ("client_secret", client_secret), ("refresh_token", refresh_token),
               ("scope", scope)]
  match post token_url data with
  | .error _ => (none, none)
  | .ok resp =>
    if resp.status ≥ 400 then (none, none)
    else
      match resp.body with
      | .obj fields =>
        if pyHasKey fields "access_token" then
          let access_token := pyStr ((fields.lookup "access_token").getD JsonVal.null)
          let new_refresh_token :=
            match fields.lookup "refresh_token" with
            | some rtVal => pyStr rtVal
            | none => refresh_token
          let token_type := pyStr ((fields.lookup "token_type").getD (JsonVal.str "Bearer"))
          let expires_in := pyStr ((fields.lookup "expires_in").getD JsonVal.null)
          let content := "Bearer Token: " ++ access_token ++ "\n" ++
            "Token Type: " ++ token_type ++ "\n" ++
            "Expires In: " ++ expires_in ++ " seconds\n" ++
            "\nRefresh Token: " ++ new_refresh_token ++ "\n"
          (some resp.body, some content)
        else (none, none)
      | _ => (none, none)

/-! Section: Concrete inputs used by the claim theorems -/

/-- A join link of the template's shape (`Tid` first, then `Oid`, inside the
URL-encoded context object), instantiated with the spec's sample values. -/
def sampleJoinLink : String :=
  "https://teams.microsoft.com/l/meetup-join/19%3ameeting_ABC123%40thread.v2/0?context=%7b%22Tid%22%3a%22TENANT1%22%2c%22Oid%22%3a%22ORG1%22%7d"

/-- A parsed invitation body with all three template landmarks: the
"Meeting ID:" span pair, the "Passcode:" span pair, and the join anchor. -/
def sampleEmailDoc : List Node :=
  [ .element "div" [] [
      .element "span" [] [.text "Meeting ID: "],
      .element "span" [] [.text "123 456 789"]],
    .element "div" [] [
      .element "span" [] [.text "Passcode: "],
      .element "span" [] [.text "PASS1"]],
    .element "div" [] [
      .element "a" [("id", "meet_invite_block.action.join_link"), ("href", sampleJoinLink)]
        [.text "Join the meeting now"]]]

/-- An invitation body carrying only the join anchor: the thread id is
extractable but the "Meeting ID:" span is absent. -/
def anchorOnlyDoc : List Node :=
  [ .element "div" [] [
      .element "a" [("id", "meet_invite_block.action.join_link"), ("href", sampleJoinLink)]
        [.text "Join the meeting now"]]]

/-- A grant outcome that succeeds with token `tok`. -/
def msalOk (tok : String) : MsalResult :=
  { access_token := some tok, error_description := none, error := none }

set_option maxRecDepth 8000

/-- The extractor's output on the full sample body (proved once, shared by
several claims): the thread and organizer captures are as intended, while the
greedy `Tid` pattern over-captures through the `Oid` section. -/
theorem extract_sampleEmailDoc :
    extract_meeting_info sampleEmailDoc =
      { meeting_id := some "123456789", passcode := some "PASS1",
        join_link := some sampleJoinLink,
        thread_id := some "19:meeting_ABC123",
        organizer_id := some "ORG1",
        tenant_id := some "TENANT1%22%2c%22Oid%22%3a%22ORG1" } := by
  have h1 : findInList (isLabelTag "span" "Meeting ID:") sampleEmailDoc =
      some (.element "span" [] [.text "Meeting ID: "],
            [.element "span" [] [.text "123 456 789"]]) := by
    simp [sampleEmailDoc, findInList, findInNode, isLabelTag, Node.hasTag, Node.stringVal,
      containsSub, List.isPrefixOf]
  have h2 : findInList (isLabelTag "span" "Passcode:") sampleEmailDoc =
      some (.element "span" [] [.text "Passcode: "], [.element "span" [] [.text "PASS1"]]) := by
    simp [sampleEmailDoc, findInList, findInNode, isLabelTag, Node.hasTag, Node.stringVal,
      containsSub, List.isPrefixOf]
  have h3 : findInList isJoinAnchor sampleEmailDoc =
      some (.element "a" [("id", "meet_invite_block.action.join_link"), ("href", sampleJoinLink)]
        [.text "Join the meeting now"], []) := by
    simp [sampleEmailDoc, findInList, findInNode, isJoinAnchor, Node.hasTag]
  rw [extract_meeting_info, h1, h2, h3]
  decide

/-- The extractor's output on the anchor-only body: thread id present,
display meeting id absent. -/
theorem extract_anchorOnlyDoc :
    extract_meeting_info anchorOnlyDoc =
      { meeting_id := none, passcode := none,
        join_link := some sampleJoinLink,
        thread_id := some "19:meeting_ABC123",
        organizer_id := some "ORG1",
        tenant_id := some "TENANT1%22%2c%22Oid%22%3a%22ORG1" } := by
  have h1 : findInList (isLabelTag "span" "Meeting ID:") anchorOnlyDoc = none := by
    simp [anchorOnlyDoc, findInList, findInNode, isLabelTag, Node.hasTag, Node.stringVal,
      containsSub, List.isPrefixOf]
  have h2 : findInList (isLabelTag "span" "Passcode:") anchorOnlyDoc = none := by
    simp [anchorOnlyDoc, findInList, findInNode, isLabelTag, Node.hasTag, Node.stringVal,
      containsSub, List.isPrefixOf]
  have h3 : findInList isJoinAnchor anchorOnlyDoc =
      some (.element "a" [("id", "meet_invite_block.action.join_link"), ("href", sampleJoinLink)]
        [.text "Join the meeting now"], []) := by
    simp [anchorOnlyDoc, findInList, findInNode, isJoinAnchor, Node.hasTag]
  rw [extract_meeting_info, h1, h2, h3]
  decide

/-! Section: Supporting lemmas about the searchers -/

/-- A successful `([^stop]+)` capture is never the empty string. -/
theorem searchLitCapture_ne_empty (lit : List Char) (stop : Char) :
    ∀ l cap, searchLitCapture lit stop l = some cap → cap ≠ "" := by
  intro l
  induction l with
  | nil => intro cap h; simp [searchLitCapture] at h
  | cons c rest ih =>
    intro cap h
    rw [searchLitCapture] at h
    split at h
    · split at h
      · exact ih _ h
      · rename_i hcap
        cases h
        intro hEq
        have hdata : (((c :: rest).drop lit.length).takeWhile (fun x => x ≠ stop)) = [] := by
          have := congrArg String.data hEq
          simpa using this
        rw [hdata] at hcap
        simp at hcap
    · exact ih _ h

/-! Section: Claim theorems: the Meeting-Info Extractor -/

/-- Claim C1 (code bug): on the sample-form join link, whose context parameter
carries `Tid=TENANT1` followed by `Oid=ORG1`, the extractor recovers
`thread_id = "19:meeting_ABC123"` and `organizer_id = "ORG1"` as claimed, but
the greedy `Tid` pattern captures through the `Oid` section, yielding
`tenant_id = "TENANT1%22%2c%22Oid%22%3a%22ORG1"` instead of `"TENANT1"`. -/
theorem C1_tenant_id_overcapture :
    (extract_meeting_info sampleEmailDoc).thread_id = some "19:meeting_ABC123" ∧
    (extract_meeting_info sampleEmailDoc).organizer_id = some "ORG1" ∧
    (extract_meeting_info sampleEmailDoc).tenant_id =
      some "TENANT1%22%2c%22Oid%22%3a%22ORG1" ∧
    (extract_meeting_info sampleEmailDoc).tenant_id ≠ some "TENANT1" := by
  rw [extract_sampleEmailDoc]
  exact ⟨rfl, rfl, rfl, by decide⟩

/-- Claim C7: extraction is best-effort on every parsed input — the function
is total (it cannot raise), and the absence of any expected element or
pattern leaves exactly that field `None`: a missing label span or missing
following sibling nulls the display fields, a missing join anchor nulls all
four link-derived fields, and each failing link pattern nulls its own
field.  The record always carries all six fields by construction. -/
theorem C7_extraction_never_throws (doc : List Node) :
    (findInList (isLabelTag "span" "Meeting ID:") doc = none →
      (extract_meeting_info doc).meeting_id = none) ∧
    (∀ n sibs, findInList (isLabelTag "span" "Meeting ID:") doc = some (n, sibs) →
      nextSiblingSpan sibs = none → (extract_meeting_info doc).meeting_id = none) ∧
    (findInList (isLabelTag "span" "Passcode:") doc = none →
      (extract_meeting_info doc).passcode = none) ∧
    (∀ n sibs, findInList (isLabelTag "span" "Passcode:") doc = some (n, sibs) →
      nextSiblingSpan sibs = none → (extract_meeting_info doc).passcode = none) ∧
    (findInList isJoinAnchor doc = none →
      (extract_meeting_info doc).join_link = none ∧
      (extract_meeting_info doc).thread_id = none ∧
      (extract_meeting_info doc).tenant_id = none ∧
      (extract_meeting_info doc).organizer_id = none) ∧
    (∀ anchor rest, findInList isJoinAnchor doc = some (anchor, rest) →
      (threadCapture (anchor.attrD "href" "") = none →
        (extract_meeting_info doc).thread_id = none) ∧
      (tidCapture (anchor.attrD "href" "") = none →
        (extract_meeting_info doc).tenant_id = none) ∧
      (oidCapture (anchor.attrD "href" "") = none →
        (extract_meeting_info doc).organizer_id = none)) := by
  unfold extract_meeting_info
  refine ⟨?_, ?_, ?_, ?_, ?_, ?_⟩
  · intro h; simp only [h]; split <;> rfl
  · intro n sibs h hs; simp only [h, hs]; split <;> rfl
  · intro h; simp only [h]; split <;> rfl
  · intro n sibs h hs; simp only [h, hs]; split <;> rfl
  · intro h; simp [h]
  · intro anchor rest h
    refine ⟨?_, ?_, ?_⟩ <;> intro hp <;> simp only [h, hp, Option.map_none] <;> rfl

/-- Claim C8: whenever the extractor reports a `thread_id`, it has the shape
`"19:meeting_" ++ s` with `s` non-empty, and every non-`None` result of
`extract_meeting_id_from_url` has the same shape. -/
theorem C8_thread_id_shape :
    (∀ doc t, (extract_meeting_info doc).thread_id = some t →
      ∃ s, s ≠ "" ∧ t = "19:meeting_" ++ s) ∧
    (∀ url t, extract_meeting_id_from_url url = some t →
      ∃ s, s ≠ "" ∧ t = "19:meeting_" ++ s) := by
  constructor
  · intro doc t h
    unfold extract_meeting_info at h
    cases hJoin : findInList isJoinAnchor doc with
    | none => rw [hJoin] at h; simp at h
    | some pr =>
      obtain ⟨anchor, sibs⟩ := pr
      rw [hJoin] at h
      dsimp only at h
      cases hcap : threadCapture (anchor.attrD "href" "") with
      | none => rw [hcap] at h; simp at h
      | some cap =>
        rw [hcap] at h
        have h2 : some ("19:meeting_" ++ cap) = some t := h
        cases h2
        exact ⟨cap, searchLitCapture_ne_empty _ _ _ _ hcap, rfl⟩
  · intro url t h
    unfold extract_meeting_id_from_url at h
    cases hcap : searchLitCapture ("19:meeting_".data) '@' (unquoteChars url.data) with
    | none => rw [hcap] at h; simp at h
    | some cap =>
      rw [hcap] at h
      have h2 : some ("19:meeting_" ++ cap) = some t := h
      cases h2
      exact ⟨cap, searchLitCapture_ne_empty _ _ _ _ hcap, rfl⟩

/-- Witness for C7 at the anchor-only body: the missing "Meeting ID:" span
yields a `None` `meeting_id`. -/
theorem C7_witness :
    (extract_meeting_info anchorOnlyDoc).meeting_id = none :=
  (C7_extraction_never_throws anchorOnlyDoc).1 (by
    simp [anchorOnlyDoc, findInList, findInNode, isLabelTag, Node.hasTag, Node.stringVal,
      containsSub, List.isPrefixOf])

/-- Witness for C8 at the sample body and the sample link. -/
theorem C8_witness :
    (∃ s, s ≠ "" ∧ "19:meeting_ABC123" = "19:meeting_" ++ s) ∧
    (∃ s, s ≠ "" ∧ "19:meeting_ABC123" = "19:meeting_" ++ s) :=
  ⟨C8_thread_id_shape.1 sampleEmailDoc "19:meeting_ABC123"
      (by rw [extract_sampleEmailDoc]),
   C8_thread_id_shape.2 "19%3ameeting_ABC123%40x" "19:meeting_ABC123"
      (by simp [extract_meeting_id_from_url, unquoteChars, hexVal, searchLitCapture,
        List.isPrefixOf])⟩

/-! Section: Claim theorems: Authenticator -/

/-- Counterexample to C5 as stated: a grant whose `access_token` is the empty
string is treated as success by `authenticate_with_password` (the source only
tests key presence) and the call returns `""`, yet `get_access_token`
afterwards still raises `NotAuthenticatedError` — its guard
`if not self.access_token` is a truthiness test — so it does not return the
token string the grant returned. -/
theorem C5_counterexample :
    (authenticate_with_password GraphAuth.initState (msalOk "")).1 = .ok "" ∧
    get_access_token (authenticate_with_password GraphAuth.initState (msalOk "")).2 =
      .error notAuthenticatedMsg ∧
    (.error notAuthenticatedMsg : Except String String) ≠ .ok "" :=
  ⟨rfl, rfl, fun h => nomatch h⟩

/-- Claim C5 as amended: before any successful authentication the state's
token is `None` and `get_access_token` raises `NotAuthenticatedError` — also
after a failed grant, which leaves the state untouched; after a successful
`authenticate_with_password` whose grant token is non-empty, that exact token
string is both returned and served by `get_access_token`.  (An empty-string
grant token is the one exception: the grant call returns it, but
`get_access_token` still raises, per the counterexample.) -/
theorem C5_access_token_lifecycle :
    (get_access_token GraphAuth.initState = .error notAuthenticatedMsg) ∧
    (∀ st res, res.access_token = none →
      (authenticate_with_password st res).2 = st) ∧
    (∀ st res tok, res.access_token = some tok → tok ≠ "" →
      (authenticate_with_password st res).1 = .ok tok ∧
      get_access_token (authenticate_with_password st res).2 = .ok tok) := by
  refine ⟨rfl, ?_, ?_⟩
  · intro st res h
    simp [authenticate_with_password, h]
  · intro st res tok h hNe
    simp [authenticate_with_password, h, hNe, get_access_token]

/-- Witness for C5 (amended): a concrete successful grant. -/
theorem C5_witness :
    (authenticate_with_password GraphAuth.initState (msalOk "TOKEN-XYZ")).1 = .ok "TOKEN-XYZ" ∧
    get_access_token (authenticate_with_password GraphAuth.initState (msalOk "TOKEN-XYZ")).2 =
      .ok "TOKEN-XYZ" :=
  C5_access_token_lifecycle.2.2 GraphAuth.initState (msalOk "TOKEN-XYZ") "TOKEN-XYZ" rfl
    (by decide)

/-! Section: Claim theorems: API Client base URL (C2) -/

/-- `(s ++ t).data = s.data ++ t.data`. -/
theorem strData_append (s t : String) : (s ++ t).data = s.data ++ t.data := by
  cases s; cases t; rfl

/-- `(s ++ t).length = s.length + t.length`. -/
theorem strLength_append (s t : String) : (s ++ t).length = s.length + t.length := by
  cases s; cases t; exact List.length_append _ _

/-- A list is a `isPrefixOf` of itself followed by anything. -/
theorem isPrefixOf_self_append (l r : List Char) : l.isPrefixOf (l ++ r) = true := by
  induction l with
  | nil => simp [List.isPrefixOf]
  | cons c cs ih => simp [List.isPrefixOf, ih]

/-- The headers in force after `_refresh_headers` on a client holding token
`tok`: the bearer line is rebuilt, the content type is kept. -/
def bearerHeaders (tok : String) (h0 : Headers) : Headers :=
  { authorization := "Bearer " ++ tok, contentType := h0.contentType }

/-- The plain-id meeting request. -/
def plainMeetingReq (b mid : String) (h : Headers) : Request :=
  { url := b ++ "/me/onlineMeetings/" ++ mid, headers := h, params := [] }

/-- The quoted-id fallback request. -/
def quotedMeetingReq (b mid : String) (h : Headers) : Request :=
  { url := b ++ "/me/onlineMeetings('" ++ mid ++ "')", headers := h, params := [] }

/-- The attendance-reports collection request. -/
def attendanceReq (b mid : String) (h : Headers) : Request :=
  { url := b ++ "/me/onlineMeetings/" ++ mid ++ "/attendanceReports", headers := h, params := [] }

/-- `_refresh_headers` on a client holding a truthy (non-empty) token
succeeds and rebuilds the bearer line from the current token. -/
theorem refresh_headers_eq (a : AuthState) (h0 : Headers) (b tok : String)
    (hTok : a.access_token = some tok) (hNe : tok ≠ "") :
    (GraphClient.mk a b h0).refresh_headers =
      .ok (GraphClient.mk a b (bearerHeaders tok h0)) := by
  unfold GraphClient.refresh_headers
  simp [get_access_token, hTok, hNe, bearerHeaders]

/-- `_refresh_headers` raises the not-authenticated exception while the
stored token is falsy (absent or the empty string). -/
theorem refresh_headers_falsy (a : AuthState) (h0 : Headers) (b : String)
    (hTok : a.access_token = none ∨ a.access_token = some "") :
    (GraphClient.mk a b h0).refresh_headers = .error notAuthenticatedMsg := by
  unfold GraphClient.refresh_headers
  rcases hTok with h | h <;> simp [get_access_token, h]

/-- Every request issued by `get_online_meeting_attendance_report` on an
authenticated client is one of the three meeting-flow requests, under the
refreshed bearer headers. -/
theorem report_requests_mem (a : AuthState) (h0 : Headers) (b : String) (http : Http)
    (mid tok : String) (hTok : a.access_token = some tok) :
    ∀ r ∈ opRequests ((GraphClient.mk a b h0).get_online_meeting_attendance_report http mid),
      r = plainMeetingReq b mid (bearerHeaders tok h0) ∨
      r = quotedMeetingReq b mid (bearerHeaders tok h0) ∨
      r = attendanceReq b mid (bearerHeaders tok h0) := by
  by_cases hNe : tok = ""
  · subst hNe
    unfold GraphClient.get_online_meeting_attendance_report
    rw [refresh_headers_falsy a h0 b (Or.inr hTok)]
    intro r hr
    simp [opRequests] at hr
  unfold GraphClient.get_online_meeting_attendance_report
  rw [refresh_headers_eq a h0 b tok hTok hNe]
  intro r hr
  simp only [plainMeetingReq, quotedMeetingReq, attendanceReq, afterMeetingFetch,
    opRequests] at hr ⊢
  split at hr
  · rename_i fst log snd heq
    split at heq <;> (repeat' split at heq) <;> cases heq <;> simp_all <;> tauto
  · simp at hr

/-- The single request issued by `get_meeting_attendance_records`. -/
theorem records_requests_mem (a : AuthState) (h0 : Headers) (b : String) (http : Http)
    (mid rid tok : String) (hTok : a.access_token = some tok) :
    ∀ r ∈ opRequests ((GraphClient.mk a b h0).get_meeting_attendance_records http mid rid),
      r = { url := b ++ "/me/onlineMeetings/" ++ mid ++ "/attendanceReports/" ++ rid ++
              "/attendanceRecords",
            headers := bearerHeaders tok h0, params := [] } := by
  by_cases hNe : tok = ""
  · subst hNe
    unfold GraphClient.get_meeting_attendance_records
    rw [refresh_headers_falsy a h0 b (Or.inr hTok)]
    intro r hr
    simp [opRequests] at hr
  unfold GraphClient.get_meeting_attendance_records
  rw [refresh_headers_eq a h0 b tok hTok hNe]
  intro r hr
  simp only [opRequests] at hr
  split at hr
  · rename_i fst log snd heq
    split at heq <;> (repeat' split at heq) <;> cases heq <;> simp_all
  · simp at hr

/-- The single request issued by `list_online_meetings`. -/
theorem list_requests_mem (a : AuthState) (h0 : Headers) (b : String) (http : Http)
    (fq : Option String) (tok : String) (hTok : a.access_token = some tok) :
    ∀ r ∈ opRequests ((GraphClient.mk a b h0).list_online_meetings http fq),
      r = { url := b ++ "/me/onlineMeetings", headers := bearerHeaders tok h0,
            params := match fq with | some q => [("$filter", q)] | none => [] } := by
  by_cases hNe : tok = ""
  · subst hNe
    unfold GraphClient.list_online_meetings
    rw [refresh_headers_falsy a h0 b (Or.inr hTok)]
    intro r hr
    simp [opRequests] at hr
  unfold GraphClient.list_online_meetings
  rw [refresh_headers_eq a h0 b tok hTok hNe]
  intro r hr
  simp only [opRequests] at hr
  split at hr
  · rename_i fst log snd heq
    split at heq <;> (repeat' split at heq) <;> cases heq <;> simp_all
  · simp at hr

/-- Whether every request of a log is addressed under the hardcoded Graph
base URL. -/
def usesGraphBase (log : List Request) : Bool :=
  log.all (fun r => ("https://graph.microsoft.com/v1.0".data).isPrefixOf r.url.data)

/-- Claim C2 as amended: the configuration loads `GRAPH_API_ENDPOINT` (with
the Graph default), but the client never consults it — `GraphClient.__init__`
pins `base_url` to the literal `https://graph.microsoft.com/v1.0` and every
request of the three operations is addressed under that literal, whatever the
environment says. -/
theorem C2_base_url_hardcoded :
    (∀ env, (Config.load env).GRAPH_API_ENDPOINT =
      getenvD env "GRAPH_API_ENDPOINT" "https://graph.microsoft.com/v1.0") ∧
    (∀ a c, GraphClient.init a = .ok c → c.base_url = "https://graph.microsoft.com/v1.0") ∧
    (∀ a h0 tok http mid rid fq, a.access_token = some tok →
      usesGraphBase (opRequests ((GraphClient.mk a "https://graph.microsoft.com/v1.0"
        h0).get_online_meeting_attendance_report http mid)) = true ∧
      usesGraphBase (opRequests ((GraphClient.mk a "https://graph.microsoft.com/v1.0"
        h0).get_meeting_attendance_records http mid rid)) = true ∧
      usesGraphBase (opRequests ((GraphClient.mk a "https://graph.microsoft.com/v1.0"
        h0).list_online_meetings http fq)) = true) := by
  refine ⟨fun env => rfl, ?_, ?_⟩
  · intro a c h
    unfold GraphClient.init get_access_token at h
    cases hTok : a.access_token with
    | none => rw [hTok] at h; simp at h
    | some t =>
      rw [hTok] at h
      dsimp only at h
      by_cases ht : t = ""
      · rw [if_pos ht] at h; simp at h
      · rw [if_neg ht] at h
        dsimp only at h
        cases h
        rfl
  · intro a h0 tok http mid rid fq hTok
    refine ⟨?_, ?_, ?_⟩
    · rw [usesGraphBase, List.all_eq_true]
      intro r hr
      rcases report_requests_mem a h0 _ http mid tok hTok r hr with h | h | h <;> subst h <;>
        simp [plainMeetingReq, quotedMeetingReq, attendanceReq, strData_append,
          List.append_assoc, isPrefixOf_self_append]
    · rw [usesGraphBase, List.all_eq_true]
      intro r hr
      rw [records_requests_mem a h0 _ http mid rid tok hTok r hr]
      simp [strData_append, List.append_assoc, isPrefixOf_self_append]
    · rw [usesGraphBase, List.all_eq_true]
      intro r hr
      rw [list_requests_mem a h0 _ http fq tok hTok r hr]
      simp [strData_append, List.append_assoc, isPrefixOf_self_append]

/-- An environment that sets `GRAPH_API_ENDPOINT` to a non-default value. -/
def exampleEnv : EnvMap := fun k =>
  if k = "GRAPH_API_ENDPOINT" then some "https://graph.example.net/api" else none

/-- A transport whose every response is an empty 200. -/
def constHttp200 : Http := fun _ => .ok { status := 200, body := .obj [] }

/-- The client the program builds from an authenticated session. -/
def tokenClient : GraphClient :=
  { auth := { access_token := some "TOK" },
    base_url := "https://graph.microsoft.com/v1.0",
    headers := { authorization := "Bearer TOK", contentType := "application/json" } }

/-- Counterexample to C2 as stated: with `GRAPH_API_ENDPOINT` configured to
`https://graph.example.net/api`, the client built by the program still sends
its request to `https://graph.microsoft.com/v1.0/me/onlineMeetings`, which is
not under the configured override. -/
theorem C2_counterexample :
    (Config.load exampleEnv).GRAPH_API_ENDPOINT = "https://graph.example.net/api" ∧
    GraphClient.init { access_token := some "TOK" } = .ok tokenClient ∧
    opRequests (tokenClient.list_online_meetings constHttp200 none) =
      [{ url := "https://graph.microsoft.com/v1.0/me/onlineMeetings",
         headers := { authorization := "Bearer TOK", contentType := "application/json" },
         params := [] }] ∧
    ("https://graph.example.net/api".data).isPrefixOf
      ("https://graph.microsoft.com/v1.0/me/onlineMeetings".data) = false := by
  exact ⟨rfl, rfl, rfl, by decide⟩

/-- Witness for C2 (amended): a concrete authenticated client whose single
list request sits under the hardcoded base. -/
theorem C2_witness :
    usesGraphBase (opRequests (tokenClient.list_online_meetings constHttp200 none)) = true :=
  (C2_base_url_hardcoded.2.2 { access_token := some "TOK" }
    { authorization := "Bearer TOK", contentType := "application/json" } "TOK"
    constHttp200 "m" "r" none rfl).2.2

/-! Section: Claim theorems: bearer token re-read on every call (C9) -/

/-- Whether every request of a log carries the bearer line for `tok`. -/
def allBearer (log : List Request) (tok : String) : Bool :=
  log.all (fun r => r.headers.authorization == "Bearer " ++ tok)

/-- Claim C9: each of the three client operations re-reads the
authenticator's current token before issuing its requests — whatever stale
`Authorization` line the constructed-time headers `h0` hold, every request
carries `Bearer <current token>`. -/
theorem C9_bearer_always_current (a : AuthState) (h0 : Headers) (b : String) (http : Http)
    (mid rid : String) (fq : Option String) (tok : String)
    (hTok : a.access_token = some tok) :
    allBearer (opRequests ((GraphClient.mk a b
      h0).get_online_meeting_attendance_report http mid)) tok = true ∧
    allBearer (opRequests ((GraphClient.mk a b
      h0).get_meeting_attendance_records http mid rid)) tok = true ∧
    allBearer (opRequests ((GraphClient.mk a b
      h0).list_online_meetings http fq)) tok = true := by
  refine ⟨?_, ?_, ?_⟩
  · rw [allBearer, List.all_eq_true]
    intro r hr
    rcases report_requests_mem a h0 b http mid tok hTok r hr with h | h | h <;> subst h <;>
      simp [plainMeetingReq, quotedMeetingReq, attendanceReq, bearerHeaders]
  · rw [allBearer, List.all_eq_true]
    intro r hr
    rw [records_requests_mem a h0 b http mid rid tok hTok r hr]
    simp [bearerHeaders]
  · rw [allBearer, List.all_eq_true]
    intro r hr
    rw [list_requests_mem a h0 b http fq tok hTok r hr]
    simp [bearerHeaders]

/-- A client whose stored headers still carry an old token while the shared
authenticator already holds a new one. -/
def staleClient : GraphClient :=
  { auth := { access_token := some "NEWTOK" },
    base_url := "https://graph.microsoft.com/v1.0",
    headers := { authorization := "Bearer OLDTOK", contentType := "application/json" } }

/-- Witness for C9: the stale client's list request carries the new token. -/
theorem C9_witness :
    allBearer (opRequests (staleClient.list_online_meetings constHttp200 none)) "NEWTOK" = true :=
  (C9_bearer_always_current { access_token := some "NEWTOK" }
    { authorization := "Bearer OLDTOK", contentType := "application/json" }
    "https://graph.microsoft.com/v1.0" constHttp200 "m" "r" none "NEWTOK" rfl).2.2

/-! Section: Claim theorems: the quoted-id fallback (C3) -/

/-- Claim C3 as amended: on a client holding a truthy token (otherwise
`_refresh_headers` raises before any request is issued), when the plain-id
GET returns 404 and the quoted-id GET returns 200, the operation issues
exactly the trace plain, quoted, attendance (the quoted-id fallback exactly
once — the three requests are pairwise distinct) and returns the parsed body
of the *attendance-reports* response when that third GET is 200 (`None`
otherwise) — not the body of the quoted-id response. -/
theorem C3_fallback_then_attendance (a : AuthState) (h0 : Headers) (b : String)
    (http : Http) (mid tok : String) (bP bQ : JsonVal) (respA : HttpResponse)
    (hTok : a.access_token = some tok) (hNe : tok ≠ "")
    (hP : http (plainMeetingReq b mid (bearerHeaders tok h0)) =
      .ok { status := 404, body := bP })
    (hQ : http (quotedMeetingReq b mid (bearerHeaders tok h0)) =
      .ok { status := 200, body := bQ })
    (hA : http (attendanceReq b mid (bearerHeaders tok h0)) = .ok respA) :
    (GraphClient.mk a b h0).get_online_meeting_attendance_report http mid =
      .ok ((if respA.status == 200 then some respA.body else none),
           [plainMeetingReq b mid (bearerHeaders tok h0),
            quotedMeetingReq b mid (bearerHeaders tok h0),
            attendanceReq b mid (bearerHeaders tok h0)],
           GraphClient.mk a b (bearerHeaders tok h0)) ∧
    plainMeetingReq b mid (bearerHeaders tok h0) ≠
      quotedMeetingReq b mid (bearerHeaders tok h0) ∧
    attendanceReq b mid (bearerHeaders tok h0) ≠
      quotedMeetingReq b mid (bearerHeaders tok h0) := by
  have h19 : ("/me/onlineMeetings/".data).length = 19 := by decide
  have h20 : ("/me/onlineMeetings('".data).length = 20 := by decide
  have h2 : ("')".data).length = 2 := by decide
  have h18 : ("/attendanceReports".data).length = 18 := by decide
  refine ⟨?_, ?_, ?_⟩
  · unfold GraphClient.get_online_meeting_attendance_report
    rw [refresh_headers_eq a h0 b tok hTok hNe]
    simp only [plainMeetingReq, quotedMeetingReq, attendanceReq] at hP hQ hA
    dsimp only
    rw [hP]
    simp only [Nat.reduceBEq, reduceIte]
    rw [hQ]
    unfold afterMeetingFetch
    dsimp only
    simp only [Nat.reduceBEq, reduceIte, beq_self_eq_true, if_true]
    rw [hA]
    cases hS : respA.status == 200 <;>
      simp [hS, plainMeetingReq, quotedMeetingReq, attendanceReq]
  · intro hEq
    have hu := congrArg (fun r => r.url.data.length) hEq
    simp only [plainMeetingReq, quotedMeetingReq, strData_append, List.append_assoc,
      List.length_append, h19, h20, h2] at hu
    omega
  · intro hEq
    have hu := congrArg (fun r => r.url.data.length) hEq
    simp only [attendanceReq, quotedMeetingReq, strData_append, List.append_assoc,
      List.length_append, h19, h20, h2, h18] at hu
    omega

/-- The concrete fallback scenario: plain-id 404, quoted-id 200 with one body,
attendance-reports 200 with a different body. -/
def c3Http : Http := fun req =>
  if req.url = "https://graph.microsoft.com/v1.0/me/onlineMeetings/MID" then
    .ok { status := 404, body := .null }
  else if req.url = "https://graph.microsoft.com/v1.0/me/onlineMeetings('MID')" then
    .ok { status := 200, body := .str "QUOTED-BODY" }
  else if req.url = "https://graph.microsoft.com/v1.0/me/onlineMeetings/MID/attendanceReports" then
    .ok { status := 200, body := .str "ATTENDANCE-BODY" }
  else .ok { status := 404, body := .null }

/-- Counterexample to C3 as stated: in that scenario the operation returns the
attendance response's parsed body, which is not the quoted-id response's
parsed body. -/
theorem C3_counterexample :
    opResult (tokenClient.get_online_meeting_attendance_report c3Http "MID") =
      some (.str "ATTENDANCE-BODY") ∧
    opResult (tokenClient.get_online_meeting_attendance_report c3Http "MID") ≠
      some (.str "QUOTED-BODY") := by
  refine ⟨rfl, ?_⟩
  intro hEq
  rw [show opResult (tokenClient.get_online_meeting_attendance_report c3Http "MID") =
    some (.str "ATTENDANCE-BODY") from rfl] at hEq
  injection hEq with h1
  injection h1 with h2
  exact absurd h2 (by decide)

/-- Witness for C3 (amended) at the concrete scenario. -/
theorem C3_witness :
    opResult (tokenClient.get_online_meeting_attendance_report c3Http "MID") =
      some (.str "ATTENDANCE-BODY") := by
  have h := C3_fallback_then_attendance { access_token := some "TOK" }
    { authorization := "Bearer TOK", contentType := "application/json" }
    "https://graph.microsoft.com/v1.0" c3Http "MID" "TOK" .null (.str "QUOTED-BODY")
    { status := 200, body := .str "ATTENDANCE-BODY" } rfl (by decide) rfl rfl rfl
  rw [show tokenClient.get_online_meeting_attendance_report c3Http "MID" =
    (GraphClient.mk { access_token := some "TOK" } "https://graph.microsoft.com/v1.0"
      { authorization := "Bearer TOK", contentType := "application/json" }
        ).get_online_meeting_attendance_report c3Http "MID" from rfl, h.1]
  rfl

/-! Section: Claim theorems: orchestration (C4, C6) -/

/-- A transport for the full happy path on meeting `19:meeting_ABC123`: the
meeting resolves, the report collection has two reports, whose record fetches
return 3 and 0 records. -/
def c6Http : Http := fun req =>
  if req.url = "https://graph.microsoft.com/v1.0/me/onlineMeetings/19:meeting_ABC123" then
    .ok { status := 200, body := .obj [("id", .str "ENCODED")] }
  else if req.url =
      "https://graph.microsoft.com/v1.0/me/onlineMeetings/19:meeting_ABC123/attendanceReports" then
    .ok { status := 200,
          body := .obj [("value", .arr [.obj [("id", .str "r1")], .obj [("id", .str "r2")]])] }
  else if req.url =
      "https://graph.microsoft.com/v1.0/me/onlineMeetings/19:meeting_ABC123/attendanceReports/r1/attendanceRecords" then
    .ok { status := 200, body := .obj [("value", .arr [.obj [], .obj [], .obj []])] }
  else if req.url =
      "https://graph.microsoft.com/v1.0/me/onlineMeetings/19:meeting_ABC123/attendanceReports/r2/attendanceRecords" then
    .ok { status := 200, body := .obj [("value", .arr [])] }
  else .ok { status := 404, body := .null }

/-- The file name the run writes. -/
def c6File : String := "attendance_reports/attendance_123456789_TS.json"

/-- The document the run persists. -/
def c6Persisted : PersistedReport :=
  { meeting_info :=
      { meeting_id := some "123456789", passcode := some "PASS1",
        join_link := some sampleJoinLink, thread_id := some "19:meeting_ABC123",
        organizer_id := some "ORG1", tenant_id := some "TENANT1%22%2c%22Oid%22%3a%22ORG1" },
    attendance_data :=
      { reports := [.obj [("id", .str "r1")], .obj [("id", .str "r2")]],
        attendance_records := [.obj [], .obj [], .obj []] },
    extracted_at := "ISO" }

/-- Claim C6: the record loop flattens the per-report fetches into one list,
a failed or empty fetch contributing zero records; on the concrete two-report
run with record fetches of 3 and 0 records, the pipeline persists the report
(flat list of length 3) and succeeds. -/
theorem C6_records_flattened :
    (∀ (fetch : JsonVal → Except String (Option JsonVal))
        (g : JsonVal → Option (List JsonVal)) (reports : List JsonVal),
      (∀ r ∈ reports, fetch r = .ok ((g r).map JsonVal.arr)) →
      recordsLoop fetch reports = .ok ((reports.map (fun r => (g r).getD [])).flatten)) ∧
    (process_email_html sampleEmailDoc true (msalOk "TOK") (msalOk "TOK") c6Http "TS" "ISO" =
      .ok (some c6File, [(c6File, c6Persisted)]) ∧
     c6Persisted.attendance_data.attendance_records.length = 3) := by
  constructor
  · intro fetch g reports
    induction reports with
    | nil => intro _; rfl
    | cons r rest ih =>
      intro h
      have hr := h r (List.mem_cons_self r rest)
      have hrest := ih (fun x hx => h x (List.mem_cons_of_mem r hx))
      rw [recordsLoop, hr]
      cases hg : g r with
      | none => simp [hg, hrest]
      | some l =>
        cases l with
        | nil => simp [hg, hrest, pyTruthy]
        | cons x xs => simp [hg, hrest, pyTruthy, pyAsList]
  · constructor
    · unfold process_email_html
      rw [extract_sampleEmailDoc]
      rfl
    · rfl

/-- Witness for C6 at a one-report instance of the loop lemma. -/
theorem C6_witness :
    recordsLoop (fun _ => .ok (some (.arr [.obj []]))) [.obj [("id", .str "w")]] =
      .ok [.obj []] := by
  have h := C6_records_flattened.1 (fun _ => .ok (some (.arr [.obj []])))
    (fun _ => some [.obj []]) [.obj [("id", .str "w")]] (fun r _ => rfl)
  rw [h]
  rfl

/-- Claim C4 (code bug): on a body whose join link yields a `thread_id` but
which has no "Meeting ID:" span, a fully successful fetch run reaches the
persistence step, where `meeting_info.get('meeting_id', 'unknown')` returns
the stored `None` (the key is always present) and `.replace` on it raises
`AttributeError`, which propagates out of `process_email_html` instead of a
returned path or `None`. -/
theorem C4_persistence_step_raises :
    process_email_html anchorOnlyDoc true (msalOk "TOK") (msalOk "TOK") c6Http "TS" "ISO" =
      .error noneReplaceMsg := by
  unfold process_email_html
  rw [extract_anchorOnlyDoc]
  rfl

/-! Section: Claim theorems: the standalone refresh utility (C10) -/

/-- Claim C10: when the token-endpoint response carries an `access_token` but
no `refresh_token`, the refresh token supplied as input is preserved: it is
the one recorded in the `access_token.txt` content, unchanged, and the parsed
response body is returned. -/
theorem C10_refresh_token_preserved (tenant cid secret scope rt atok : String)
    (fields : List (String × JsonVal)) (post : HttpPost)
    (hPost : post ("https://login.microsoftonline.com/" ++ tenant ++ "/oauth2/v2.0/token")
      [("grant_type", "refresh_token"), ("client_id", cid), ("client_secret", secret),
       ("refresh_token", rt), ("scope", scope)] = .ok { status := 200, body := .obj fields })
    (hAT : fields.lookup "access_token" = some (.str atok))
    (hRT : fields.lookup "refresh_token" = none) :
    refresh_access_token tenant cid secret scope rt post =
      (some (.obj fields),
       some ("Bearer Token: " ++ atok ++ "\n" ++ "Token Type: " ++
         pyStr ((fields.lookup "token_type").getD (JsonVal.str "Bearer")) ++ "\n" ++
         "Expires In: " ++ pyStr ((fields.lookup "expires_in").getD JsonVal.null) ++
         " seconds\n" ++ "\nRefresh Token: " ++ rt ++ "\n")) := by
  unfold refresh_access_token
  dsimp only
  rw [hPost]
  simp [pyHasKey, hAT, hRT, pyStr]

/-- A token endpoint answering with an access token only. -/
def c10Post : HttpPost := fun _ _ =>
  .ok { status := 200, body := .obj [("access_token", .str "AT-1")] }

/-- Witness for C10 at the concrete endpoint. -/
theorem C10_witness :
    refresh_access_token "T" "C" "S" "Calendars.Read" "RT-0" c10Post =
      (some (.obj [("access_token", .str "AT-1")]),
       some "Bearer Token: AT-1\nToken Type: Bearer\nExpires In: None seconds\n\nRefresh Token: RT-0\n") := by
  have h := C10_refresh_token_preserved "T" "C" "S" "Calendars.Read" "RT-0" "AT-1"
    [("access_token", .str "AT-1")] c10Post rfl rfl rfl
  rw [h]
  rfl
